import Mathlib

/-!
Verification development for the Cognivo python backend
(src/Website/python-api/main.py).

The heart of the service is `stream_ai_response`: a state machine that
consumes the upstream model's streaming events and re-emits a line stream
of outward events (`text_delta`, `tool_start`, `canvas_update`,
`tool_finish`, `error`, `done`).  We embed that state machine shallowly:
the mutable locals `current_tool_use` and `tool_input_buffer` become a
`RelayState`, each upstream event becomes one `relayStep`, and a whole
turn is a fold `processFrom` over the event list.  The two-stage JSON
parse performed inside the `try:` block at a flush point
(`json.loads(tool_input_buffer)`, the `.get` extractions, and the inner
`json.loads(canvas_json)`) is abstracted as a parameter
`fp : String → FlushResult`, since its outcome is exactly one of:
both parses succeed (yield `canvas_update` + `tool_finish`),
a `json.JSONDecodeError` is raised (yield one `error`), or some other
exception escapes (e.g. the outer value is a JSON list, so `.get` raises
`AttributeError`, which the `except json.JSONDecodeError` clause does not
catch); that last case propagates to the outer `except Exception`, which
yields a single `error` and ends the generator.

The file-processing endpoint (`process_file` / `process_csv_file`) and the
prompt builder (`build_system_prompt`) are embedded further below.
-/

namespace Cognivo

/-- Token-usage record attached to the final message
(`final_msg.usage.input_tokens` / `output_tokens`). -/
structure Usage where
  input_tokens : Nat
  output_tokens : Nat
deriving DecidableEq, Repr

/-- Block kind carried by an upstream `content_block_start` event:
`event.content_block.type` is `"text"`, `"tool_use"` (with a tool name),
or some other kind, which the code's `if/elif` chain ignores. -/
inductive ContentBlock where
  | text
  | tool_use (name : String)
  | other
deriving DecidableEq, Repr

/-- Payload of an upstream `content_block_delta` event.  The code probes
`hasattr(event.delta, 'text')` and then the partial-JSON attribute;
`json_fragment` models a delta carrying such a partial-JSON fragment,
and `other` a delta carrying neither attribute. -/
inductive Delta where
  | text (s : String)
  | json_fragment (s : String)
  | other
deriving DecidableEq, Repr

/-- One upstream streaming event, as dispatched on `event.type`.
`message_stop` carries the usage record that the code fetches via
`stream.get_final_message()` while handling that event; `other` is any
unrecognized event type, which the dispatch chain skips. -/
inductive Event where
  | content_block_start (block : ContentBlock)
  | content_block_delta (delta : Delta)
  | content_block_stop
  | message_stop (usage : Usage)
  | other
deriving DecidableEq, Repr

/-- One outward JSON-line event yielded by `stream_ai_response`. -/
inductive OutEvent where
  | text_delta (text : String)
  | tool_start (tool_name : String) (message : String)
  | canvas_update (canvas : String) (explanation : String)
  | tool_finish (tool_name : String)
  | error (error : String)
  | done (usage : Usage)
deriving DecidableEq, Repr

/-- Outcome of the two-stage parse performed on the accumulated buffer at
a flush point: `success canvas explanation` when `json.loads` of the
buffer yields a dict and the inner `json.loads(canvas_json)` also
succeeds; `jsonError msg` when either stage raises `json.JSONDecodeError`
(caught by the handler, which yields one `error` event); `fatal msg` when
some other exception is raised there (e.g. `AttributeError` because the
outer value is not a dict), which escapes to the generator's outer
`except Exception`. -/
inductive FlushResult where
  | success (canvas_json : String) (explanation : String)
  | jsonError (msg : String)
  | fatal (msg : String)
deriving DecidableEq, Repr

/-- The two mutable locals of `stream_ai_response`'s streaming loop:
`current_tool_use` (the open tool block's name, if any) and
`tool_input_buffer` (the accumulated partial-JSON fragments). -/
structure RelayState where
  current_tool_use : Option String
  tool_input_buffer : String
deriving DecidableEq, Repr

/-- Initial state of a turn: `current_tool_use = None`,
`tool_input_buffer = ""`. -/
def initState : RelayState := ⟨none, ""⟩

/-- The `message` string of a `tool_start` event, as the source literal
stores it (the file carries a mojibake-encoded wrench emoji prefix). -/
def editCanvasMessage : String := "ğŸ”§ Editing canvas..."

/-- The guard of both flush sites:
`current_tool_use == "edit_canvas" and tool_input_buffer`. -/
def flushReady (s : RelayState) : Bool :=
  s.current_tool_use = some "edit_canvas" && !(s.tool_input_buffer = "")

/-- Continuation after one event: either the loop continues in a new
state, or an uncaught exception is propagating (`crash msg`). -/
inductive Progress where
  | cont (s : RelayState)
  | crash (msg : String)
deriving DecidableEq, Repr

/-- One iteration of the `async for event in stream` loop of
`stream_ai_response`: the outward events yielded while handling `ev`,
paired with the continuation.  Faithfully mirrors the source:
* `content_block_start` of kind text is a `pass`; of kind tool_use it
  records the block's name, resets the buffer and yields `tool_start`
  (for any tool name); any other kind falls through the `if/elif` chain;
* `content_block_delta` forwards a text fragment as `text_delta` and
  appends a partial-JSON fragment to the buffer (unconditionally);
* `content_block_stop` flushes when `current_tool_use == "edit_canvas"`
  and the buffer is non-empty, then clears both locals; otherwise `pass`;
* `message_stop` performs the same flush (without clearing the locals —
  the source has no reset there) and then yields `done` with the usage. -/
def relayStep (fp : String → FlushResult) (s : RelayState) :
    Event → List OutEvent × Progress
  | .content_block_start .text => ([], .cont s)
  | .content_block_start (.tool_use name) =>
      ([.tool_start name editCanvasMessage], .cont ⟨some name, ""⟩)
  | .content_block_start .other => ([], .cont s)
  | .content_block_delta (.text t) => ([.text_delta t], .cont s)
  | .content_block_delta (.json_fragment p) =>
      ([], .cont ⟨s.current_tool_use, s.tool_input_buffer ++ p⟩)
  | .content_block_delta .other => ([], .cont s)
  | .content_block_stop =>
      if flushReady s then
        match fp s.tool_input_buffer with
        | .success c e =>
            ([.canvas_update c e, .tool_finish "edit_canvas"], .cont ⟨none, ""⟩)
        | .jsonError m =>
            ([.error ("Invalid canvas JSON: " ++ m)], .cont ⟨none, ""⟩)
        | .fatal m => ([], .crash m)
      else ([], .cont s)
  | .message_stop u =>
      if flushReady s then
        match fp s.tool_input_buffer with
        | .success c e =>
            ([.canvas_update c e, .tool_finish "edit_canvas", .done u], .cont s)
        | .jsonError m =>
            ([.error ("Invalid canvas JSON: " ++ m), .done u], .cont s)
        | .fatal m => ([], .crash m)
      else ([.done u], .cont s)
  | .other => ([], .cont s)

/-- The outward event list produced from state `s` by the rest of the
upstream events.  A crash appends the single `error` yielded by the
generator's outer `except Exception` handler and ends the stream. -/
def processFrom (fp : String → FlushResult) : RelayState → List Event → List OutEvent
  | _, [] => []
  | s, ev :: rest =>
    match relayStep fp s ev with
    | (out, .cont s2) => out ++ processFrom fp s2 rest
    | (out, .crash m) => out ++ [.error m]

/-- The state reached after consuming a list of events (or `crash` if an
uncaught exception ended the generator). -/
def runState (fp : String → FlushResult) : RelayState → List Event → Progress
  | s, [] => .cont s
  | s, ev :: rest =>
    match relayStep fp s ev with
    | (_, .cont s2) => runState fp s2 rest
    | (_, .crash m) => .crash m

/-- The generator `stream_ai_response`, as a function from the upstream event list of
one turn to the outward event list. -/
def stream_ai_response (fp : String → FlushResult) (events : List Event) :
    List OutEvent :=
  processFrom fp initState events

/-- Recognizer for `canvas_update` outward events. -/
def isCanvasUpdate : OutEvent → Bool
  | .canvas_update _ _ => true
  | _ => false

/-- Recognizer for `tool_finish` outward events. -/
def isToolFinish : OutEvent → Bool
  | .tool_finish _ => true
  | _ => false

/-- Recognizer for `tool_start` outward events. -/
def isToolStart : OutEvent → Bool
  | .tool_start _ _ => true
  | _ => false

/-- Recognizer for `error` outward events. -/
def isErrorEvent : OutEvent → Bool
  | .error _ => true
  | _ => false

/-- Recognizer for `done` outward events. -/
def isDoneEvent : OutEvent → Bool
  | .done _ => true
  | _ => false

/-- Number of `canvas_update` events in an outward stream. -/
def countCanvasUpdate (l : List OutEvent) : Nat := l.countP isCanvasUpdate

/-- Number of `tool_finish` events in an outward stream. -/
def countToolFinish (l : List OutEvent) : Nat := l.countP isToolFinish

/-- Number of `tool_start` events in an outward stream. -/
def countToolStart (l : List OutEvent) : Nat := l.countP isToolStart

/-- Number of `error` events in an outward stream. -/
def countError (l : List OutEvent) : Nat := l.countP isErrorEvent

/-- Number of `done` events in an outward stream. -/
def countDone (l : List OutEvent) : Nat := l.countP isDoneEvent

/-- Recognizer for a `content_block_start` of kind tool_use named
`edit_canvas` — the only event that can open a flushable block. -/
def isEditCanvasStart : Event → Bool
  | .content_block_start (.tool_use n) => n = "edit_canvas"
  | _ => false

/-- Number of `edit_canvas` tool_use block starts in an upstream turn. -/
def countEditCanvasStart (evs : List Event) : Nat := evs.countP isEditCanvasStart

/-- Recognizer for the upstream `message_stop` event. -/
def isMessageStop : Event → Bool
  | .message_stop _ => true
  | _ => false

/-- A well-formed turn carries its `message_stop`, if any, as the last
event (the upstream protocol ends each turn with `message_stop`). -/
def msgStopOnlyLast : List Event → Bool
  | [] => true
  | e :: rest => if isMessageStop e then rest.isEmpty else msgStopOnlyLast rest

/-- Whether any event of the list is a delta carrying a partial-JSON
fragment. -/
def hasJsonFragment (evs : List Event) : Bool :=
  evs.any fun e =>
    match e with
    | .content_block_delta (.json_fragment _) => true
    | _ => false

/-- Flush capability of a state: 1 when an `edit_canvas` block is
recorded open (so a flush may still happen), 0 otherwise.  Used to bound
the number of `canvas_update` events of a turn. -/
def flushPotential (s : RelayState) : Nat :=
  if s.current_tool_use = some "edit_canvas" then 1 else 0

/- ============================================================
   File-processing endpoint (`process_file`, `process_csv_file`,
   `process_excel_file`)
   ============================================================ -/

/-- The body of the `FileProcessingResponse` pydantic model.  The
`file_schema`/`subsets` payloads of a success are irrelevant to the
claims and are abstracted behind the `success` flag; the `error` field is
carried in full. -/
structure FileProcessingResponse where
  success : Bool
  error : Option String
deriving DecidableEq, Repr

/-- HTTP status plus body, as sent by the endpoint. -/
structure HttpResult where
  status : Nat
  body : FileProcessingResponse
deriving DecidableEq, Repr

/-- Outcome of `process_csv_file` / `process_excel_file` (and of the
`generate_subsets_with_claude` call they delegate to): either a returned
response, or a raised exception carrying its message (caught by
`process_file`'s `except Exception`). -/
inductive PathOutcome where
  | ok (resp : FileProcessingResponse)
  | raised (msg : String)
deriving DecidableEq, Repr

/-- The parsed dataframe, abstracted to its two axis lengths (all the
dispatch logic reads from it is pandas' `df.empty`). -/
structure DataFrame where
  nrows : Nat
  ncols : Nat
deriving DecidableEq, Repr

/-- pandas `DataFrame.empty`: true when either axis has length 0. -/
def DataFrame.emptyDf (df : DataFrame) : Bool :=
  df.nrows = 0 || df.ncols = 0

/-- Substring containment over char lists (prefix at some position). -/
def listHasPre : List Char → List Char → Bool
  | [], _ => true
  | _ :: _, [] => false
  | p :: ps, c :: cs => p = c && listHasPre ps cs

/-- Substring containment over char lists. -/
def listHasSub (pat : List Char) : List Char → Bool
  | [] => pat.isEmpty
  | c :: cs => listHasPre pat (c :: cs) || listHasSub pat cs

/-- Python's `pat in s` substring test. -/
def strHasSub (s pat : String) : Bool := listHasSub pat.toList s.toList

/-- Python's `str.lower`, over the character list. -/
def strToLower (s : String) : String := ⟨s.data.map Char.toLower⟩

/-- Python's `str.endswith`, as a prefix test on the reversed character
lists. -/
def strEndsWith (s suffix : String) : Bool :=
  listHasPre suffix.data.reverse s.data.reverse

/-- The first dispatch test of `process_file`:
`fileType.lower().endswith('.csv') or 'csv' in fileType.lower()`. -/
def isCsvType (ft : String) : Bool :=
  strEndsWith (strToLower ft) ".csv" || strHasSub (strToLower ft) "csv"

/-- The second dispatch test of `process_file`:
`fileType.lower().endswith(('.xlsx', '.xls')) or 'spreadsheet' in
fileType.lower() or 'excel' in fileType.lower()`. -/
def isExcelType (ft : String) : Bool :=
  strEndsWith (strToLower ft) ".xlsx" || strEndsWith (strToLower ft) ".xls" ||
    strHasSub (strToLower ft) "spreadsheet" ||
    strHasSub (strToLower ft) "excel"

/-- The function `process_csv_file` applied to the already-parsed dataframe: raises
`ValueError("CSV file is empty")` on an empty dataframe without touching
the model; otherwise delegates to `generate_subsets_with_claude`, whose
outcome is the abstract `modelOutcome` parameter.  The second component
records whether the model call was issued. -/
def process_csv_file (modelOutcome : PathOutcome) (df : DataFrame) :
    PathOutcome × Bool :=
  if df.emptyDf then (.raised "CSV file is empty", false)
  else (modelOutcome, true)

/-- The function `process_excel_file` applied to the combined dataframe of all sheets:
raises `ValueError("Excel sheet is empty")` on an empty dataframe without
touching the model; otherwise delegates to the model call. -/
def process_excel_file (modelOutcome : PathOutcome) (df : DataFrame) :
    PathOutcome × Bool :=
  if df.emptyDf then (.raised "Excel sheet is empty", false)
  else (modelOutcome, true)

/-- The `except Exception` wrapper of `process_file`: a returned response goes
out as HTTP 200; a raised exception is converted to HTTP 200 with
`success=False` and `error=str(e)`. -/
def wrapOutcome : PathOutcome × Bool → HttpResult × Bool
  | (.ok r, mc) => (⟨200, r⟩, mc)
  | (.raised m, mc) => (⟨200, ⟨false, some m⟩⟩, mc)

/-- The `POST /api/process-file` handler, given the parsed dataframe of
the decoded upload.  The unsupported-type branch executes
`raise HTTPException(status_code=400, ...)` — but that raise happens
inside the same `try:` whose `except Exception` returns a
`FileProcessingResponse`, and starlette's `HTTPException` is an
`Exception`, so the handler swallows it and the endpoint answers
HTTP 200 with `success=False` and `error = str(e) =
"400: Unsupported file type: <fileType>"`. -/
def process_file (modelOutcome : PathOutcome) (df : DataFrame)
    (fileType : String) : HttpResult × Bool :=
  if isCsvType fileType then wrapOutcome (process_csv_file modelOutcome df)
  else if isExcelType fileType then
    wrapOutcome (process_excel_file modelOutcome df)
  else
    (⟨200, ⟨false, some ("400: Unsupported file type: " ++ fileType)⟩⟩, false)

/- ============================================================
   Prompt builder (`build_system_prompt`)
   ============================================================ -/

/-- The `fileSchema` sub-record of a stored data source, restricted to
the two fields `build_system_prompt` reads: `columns` (a list of
string-keyed records, modelled as association lists) and `rowCount`. -/
structure SchemaRec where
  columns : List (List (String × String))
  rowCount : Nat
deriving DecidableEq, Repr

/-- One entry of a data source's `subsets` list, with the fields the
prompt builder extracts via `.get(..., "")` / `.get(..., [])`.
`dataPoints` entries are modelled as (x, y) pairs. -/
structure SubsetRec where
  description : String
  xAxisName : String
  xAxisDescription : String
  yAxisName : String
  yAxisDescription : String
  dataPoints : List (String × Int)
deriving DecidableEq, Repr

/-- The `rawFileData` sub-record: the stored base64 buffer and the file
type (both read only when the raw-data toggle is enabled). -/
structure RawFileData where
  fileBuffer : Option String
  fileType : String
deriving DecidableEq, Repr

/-- One element of the `data_sources` list.  Every field the source
reads through `ds.get(key, default)` is an `Option` (or a list with
default `[]`); `fid` models the `_id` field. -/
structure DataSource where
  fid : Option String
  originalFileName : Option String
  fileSchema : Option SchemaRec
  subsets : List SubsetRec
  rawFileData : Option RawFileData
deriving DecidableEq, Repr

/-- A data source with its raw file payload removed; two catalogues with
the same image under this map differ only in their `rawFileData`. -/
def DataSource.eraseRaw (ds : DataSource) : DataSource :=
  { ds with rawFileData := none }

/-- The newline separator `chr(10)`. -/
def nl : String := "\n"

/-- One line of the `data_summary` list:
`f"- {file_name}: {len(columns)} columns, {row_count} rows,
{len(subsets)} pre-generated visualizations"`. -/
def dataSummaryLine (ds : DataSource) : String :=
  let file_name := ds.originalFileName.getD "Unknown"
  let columns := (ds.fileSchema.map SchemaRec.columns).getD []
  let row_count := (ds.fileSchema.map SchemaRec.rowCount).getD 0
  "- " ++ file_name ++ ": " ++ toString columns.length ++ " columns, " ++
    toString row_count ++ " rows, " ++ toString ds.subsets.length ++
    " pre-generated visualizations"

/-- The `full_raw_data` lines contributed by one data source when the
raw-data toggle is enabled.  The pandas re-parse of the decoded buffer
(CSV or sheet-by-sheet Excel, or the error line when parsing fails) is
abstracted as the `pandasDump` parameter; the header line is appended
before the parse, as in the source. -/
def rawBlock (pandasDump : String → RawFileData → List String)
    (ds : DataSource) : List String :=
  match ds.rawFileData with
  | none => []
  | some rfd =>
    match rfd.fileBuffer with
    | none => []
    | some _ =>
      (nl ++ "**RAW FILE DATA: " ++ ds.originalFileName.getD "Unknown" ++ "**")
        :: pandasDump (ds.originalFileName.getD "Unknown") rfd

/-- The lines of one subset inside `full_subsets_data`; `toString` of the
point list stands for `json.dumps(data_points, indent=2)`. -/
def subsetLines (i : Nat) (subset : SubsetRec) : List String :=
  ["--- SUBSET " ++ toString (i + 1) ++ " ---",
   "Description: " ++ subset.description,
   "X-Axis: " ++ subset.xAxisName ++ " (" ++ subset.xAxisDescription ++ ")",
   "Y-Axis: " ++ subset.yAxisName ++ " (" ++ subset.yAxisDescription ++ ")",
   "Data Points (" ++ toString subset.dataPoints.length ++ " total):",
   toString subset.dataPoints,
   ""]

/-- The `full_subsets_data` lines contributed by one data source (empty
when the source has no subsets). -/
def subsetsBlock (ds : DataSource) : List String :=
  if ds.subsets.isEmpty then []
  else
    (nl ++ "**File: " ++ ds.originalFileName.getD "Unknown" ++ " (ID: " ++
        ds.fid.getD "unknown" ++ ")**") ::
      ("Total subsets: " ++ toString ds.subsets.length ++ nl) ::
      (ds.subsets.enum.map fun p => subsetLines p.1 p.2).flatten

/-- The `try/except` around the canvas parse at the top of
`build_system_prompt`: the whole block — `json.loads(current_canvas)`
followed by `len(canvas_obj.get("nodes", []))` and
`len(canvas_obj.get("edges", []))` — is abstracted as `canvasParse`
(`.ok (node_count, edge_count)` when it completes, `.error` when any of
it raises); the bare `except:` substitutes `(0, 0)`. -/
def canvas_counts (canvasParse : String → Except String (Nat × Nat))
    (current_canvas : String) : Nat × Nat :=
  match canvasParse current_canvas with
  | .ok counts => counts
  | .error _ => (0, 0)

/-- The rendered system prompt, given the already-computed node/edge
counts.  The enormous static instruction text of the source template is
abbreviated; every data-dependent hole (counts, canvas text, data
summary, raw-data section, subsets section, and the four rule sentences
switched on the raw-data toggle) is rendered faithfully, in template
order, including the emptiness fallbacks of the f-string. -/
def renderPrompt (includeRaw : Bool)
    (pandasDump : String → RawFileData → List String)
    (node_count edge_count : Nat) (current_canvas : String)
    (data_sources : List DataSource) : String :=
  let data_summary := data_sources.map dataSummaryLine
  let full_raw_data :=
    if includeRaw then (data_sources.map (rawBlock pandasDump)).flatten else []
  let full_subsets_data := (data_sources.map subsetsBlock).flatten
  "You are an AI assistant helping users build data visualizations on a canvas."
    ++ nl ++
    "**Current Canvas State:**" ++ nl ++
    "- Nodes: " ++ toString node_count ++ nl ++
    "- Edges: " ++ toString edge_count ++ nl ++
    "- Full JSON: " ++ current_canvas ++ nl ++
    "**Available Data Sources:**" ++ nl ++
    (if data_summary.isEmpty then "No data sources uploaded yet"
     else String.intercalate nl data_summary) ++ nl ++
    "**COMPLETE RAW FILE DATA (ALL SHEETS, ALL ROWS):**" ++ nl ++
    (if full_raw_data.isEmpty then
       (if includeRaw then "No raw data available"
        else "Raw file data not included (disabled in configuration)")
     else String.intercalate nl full_raw_data) ++ nl ++
    "**Pre-generated Subsets with FULL DATA:**" ++ nl ++
    (if full_subsets_data.isEmpty then "No subsets available yet"
     else String.intercalate nl full_subsets_data) ++ nl ++
    (if includeRaw then
       "You have the COMPLETE raw spreadsheet data (all sheets, all rows) provided above in COMPLETE RAW FILE DATA section"
     else
       "Use the pre-generated subsets provided above - they contain aggregated and processed data ready for visualization") ++ nl ++
    (if includeRaw then
       "You can transform and use the raw data directly, or use the pre-generated subsets - you have everything!"
     else
       "Use the pre-generated subsets which contain carefully selected data perspectives optimized for different chart types") ++ nl ++
    (if includeRaw then
       "For Excel files, ALL sheets are provided separately - you can create visualizations from ANY sheet"
     else
       "Pre-generated subsets may include data from multiple sheets where applicable") ++ nl ++
    (if includeRaw then
       "You can aggregate, filter, group, or transform the raw data however you want before creating visualizations"
     else
       "Use the pre-generated subsets which are already aggregated and processed for optimal visualization") ++ nl ++
    "Be creative, helpful, and make beautiful, COMPREHENSIVE visualizations with ALL data embedded!"

/-- The function `build_system_prompt`: parse the canvas (with the `(0, 0)` fallback),
then render the template.  `includeRaw` is the process-wide
`INCLUDE_RAW_FILE_DATA` toggle. -/
def build_system_prompt (includeRaw : Bool)
    (canvasParse : String → Except String (Nat × Nat))
    (pandasDump : String → RawFileData → List String)
    (current_canvas : String) (data_sources : List DataSource) : String :=
  let counts := canvas_counts canvasParse current_canvas
  renderPrompt includeRaw pandasDump counts.1 counts.2 current_canvas
    data_sources

/- ============================================================
   Concrete fixtures (used by witnesses and counterexamples)
   ============================================================ -/

/-- A parse valuation under which the buffer `"good"` is a well-formed
tool argument (outer dict with `canvas_json` text `"canvasText"` and
explanation `"cleared"`) and every other buffer fails with a JSON decode
error. -/
def fpOk : String → FlushResult := fun b =>
  if b = "good" then .success "canvasText" "cleared"
  else .jsonError "Expecting value"

/-- A parse valuation under which every buffer is malformed JSON. -/
def fpErr : String → FlushResult := fun _ => .jsonError "Expecting value"

/-- A parse valuation under which the buffer `"nd"` parses to a JSON
value that is not a dict, so the `.get` call raises an `AttributeError`
that the `except json.JSONDecodeError` clause does not catch. -/
def fpFatal : String → FlushResult := fun b =>
  if b = "nd" then .fatal "AttributeError: no attribute get"
  else .jsonError "Expecting value"

/-- A turn prefix that opens an `edit_canvas` tool block and accumulates
the buffer `"good"`, with no `content_block_stop`. -/
def preC1 : List Event :=
  [.content_block_start (.tool_use "edit_canvas"),
   .content_block_delta (.json_fragment "good")]

/-- A turn prefix that opens an `edit_canvas` tool block and accumulates
the (malformed) buffer `"X"`, with no `content_block_stop`. -/
def preC3 : List Event :=
  [.content_block_start (.tool_use "edit_canvas"),
   .content_block_delta (.json_fragment "X")]

/-- A full turn whose malformed tool argument is flushed at
`message_stop`. -/
def evsC3 : List Event :=
  [.content_block_start (.tool_use "edit_canvas"),
   .content_block_delta (.json_fragment "X"),
   .message_stop ⟨0, 0⟩]

/-- A full turn reaching `message_stop` whose buffered tool argument
parses to a non-dict JSON value. -/
def evsC5 : List Event :=
  [.content_block_start (.tool_use "edit_canvas"),
   .content_block_delta (.json_fragment "nd"),
   .message_stop ⟨0, 0⟩]

/-- A canvas parse valuation that fails on every input. -/
def cpFail : String → Except String (Nat × Nat) := fun _ =>
  .error "Expecting value"

/-- A trivial pandas-dump valuation for the prompt fixtures. -/
def pdNone : String → RawFileData → List String := fun _ _ => []

/-- A concrete pre-computed subset. -/
def subsetA : SubsetRec := ⟨"desc", "x", "xd", "y", "yd", [("a", 1), ("b", 2)]⟩

/-- A concrete data source holding one raw file buffer. -/
def dsRaw1 : DataSource :=
  ⟨some "id1", some "a.csv", some ⟨[[("name", "col1")]], 5⟩, [subsetA],
    some ⟨some "QUJD", "text/csv"⟩⟩

/-- The same data source with a different raw file buffer. -/
def dsRaw2 : DataSource := { dsRaw1 with rawFileData := some ⟨some "WFla", "text/csv"⟩ }

/-- Unfolding equation for `processFrom` on a cons cell. -/
theorem processFrom_cons (fp : String → FlushResult) (s : RelayState)
    (ev : Event) (rest : List Event) :
    processFrom fp s (ev :: rest) =
      match relayStep fp s ev with
      | (out, .cont s2) => out ++ processFrom fp s2 rest
      | (out, .crash m) => out ++ [.error m] := rfl

/-- Unfolding equation for `runState` on a cons cell. -/
theorem runState_cons (fp : String → FlushResult) (s : RelayState)
    (ev : Event) (rest : List Event) :
    runState fp s (ev :: rest) =
      match relayStep fp s ev with
      | (_, .cont s2) => runState fp s2 rest
      | (_, .crash m) => .crash m := rfl

/-- Splitting the processing of a turn at any prefix whose run does not
crash. -/
theorem processFrom_append (fp : String → FlushResult) :
    ∀ (pre : List Event) (s s' : RelayState) (post : List Event),
      runState fp s pre = .cont s' →
      processFrom fp s (pre ++ post) =
        processFrom fp s pre ++ processFrom fp s' post := by
  intro pre
  induction pre with
  | nil =>
    intro s s' post h
    simp only [runState] at h
    cases h
    simp [processFrom]
  | cons ev rest ih =>
    intro s s' post h
    rw [runState_cons] at h
    rw [List.cons_append, processFrom_cons, processFrom_cons]
    cases hstep : relayStep fp s ev with
    | mk out p =>
      cases p with
      | cont s2 =>
        rw [hstep] at h
        simp only at h ⊢
        rw [ih s2 s' post h, List.append_assoc]
      | crash m =>
        rw [hstep] at h
        exact Progress.noConfusion h

/-- The state reached after a crash-free prefix determines the run of the
remainder. -/
theorem runState_append (fp : String → FlushResult) :
    ∀ (pre : List Event) (s s' : RelayState) (post : List Event),
      runState fp s pre = .cont s' →
      runState fp s (pre ++ post) = runState fp s' post := by
  intro pre
  induction pre with
  | nil =>
    intro s s' post h
    simp only [runState] at h
    cases h
    rfl
  | cons ev rest ih =>
    intro s s' post h
    rw [runState_cons] at h
    rw [List.cons_append, runState_cons]
    cases hstep : relayStep fp s ev with
    | mk out p =>
      cases p with
      | cont s2 =>
        rw [hstep] at h
        simp only at h ⊢
        exact ih s2 s' post h
      | crash m =>
        rw [hstep] at h
        exact Progress.noConfusion h

/-- An open `edit_canvas` block with a non-empty buffer is flush-ready. -/
theorem flushReady_open (b : String) (hb : b ≠ "") :
    flushReady ⟨some "edit_canvas", b⟩ = true := by
  simp [flushReady, hb]

/-- A state whose buffer is empty is never flush-ready — this is the
de-duplication check of the `message_stop` handler. -/
theorem flushReady_empty (s : RelayState) (h : s.tool_input_buffer = "") :
    flushReady s = false := by
  simp [flushReady, h]

/-- A flush-ready state has potential 1. -/
theorem flushPotential_of_ready (s : RelayState) (h : flushReady s = true) :
    flushPotential s = 1 := by
  simp only [flushReady, Bool.and_eq_true, decide_eq_true_eq] at h
  simp [flushPotential, h.1]

/-- Processing a lone `content_block_stop` in a flush-ready state whose
buffer parses: the two outward events and the cleared state. -/
theorem stop_flush_success (fp : String → FlushResult) (b c e : String)
    (hb : b ≠ "") (hp : fp b = .success c e) :
    processFrom fp ⟨some "edit_canvas", b⟩ [.content_block_stop] =
      [.canvas_update c e, .tool_finish "edit_canvas"] ∧
    runState fp ⟨some "edit_canvas", b⟩ [.content_block_stop] =
      .cont ⟨none, ""⟩ := by
  have hfr := flushReady_open b hb
  constructor <;> simp [processFrom, runState, relayStep, hfr, hp]

/-- Processing a lone `content_block_stop` in a flush-ready state whose
buffer is malformed: one `error` event and the cleared state. -/
theorem stop_flush_jsonError (fp : String → FlushResult) (b m : String)
    (hb : b ≠ "") (hp : fp b = .jsonError m) :
    processFrom fp ⟨some "edit_canvas", b⟩ [.content_block_stop] =
      [.error ("Invalid canvas JSON: " ++ m)] ∧
    runState fp ⟨some "edit_canvas", b⟩ [.content_block_stop] =
      .cont ⟨none, ""⟩ := by
  have hfr := flushReady_open b hb
  constructor <;> simp [processFrom, runState, relayStep, hfr, hp]

/-- Processing a lone `message_stop` in a flush-ready state whose buffer
parses: `canvas_update`, `tool_finish`, `done` — and the state is left
as it was (the source resets nothing at this flush site). -/
theorem msgstop_flush_success (fp : String → FlushResult) (b c e : String)
    (u : Usage) (hb : b ≠ "") (hp : fp b = .success c e) :
    processFrom fp ⟨some "edit_canvas", b⟩ [.message_stop u] =
      [.canvas_update c e, .tool_finish "edit_canvas", .done u] ∧
    runState fp ⟨some "edit_canvas", b⟩ [.message_stop u] =
      .cont ⟨some "edit_canvas", b⟩ := by
  have hfr := flushReady_open b hb
  constructor <;> simp [processFrom, runState, relayStep, hfr, hp]

/-- Processing a lone `message_stop` in a flush-ready state whose buffer
is malformed: one `error` then `done` — and the state is left as it was. -/
theorem msgstop_flush_jsonError (fp : String → FlushResult) (b m : String)
    (u : Usage) (hb : b ≠ "") (hp : fp b = .jsonError m) :
    processFrom fp ⟨some "edit_canvas", b⟩ [.message_stop u] =
      [.error ("Invalid canvas JSON: " ++ m), .done u] ∧
    runState fp ⟨some "edit_canvas", b⟩ [.message_stop u] =
      .cont ⟨some "edit_canvas", b⟩ := by
  have hfr := flushReady_open b hb
  constructor <;> simp [processFrom, runState, relayStep, hfr, hp]

/-- Processing a lone `message_stop` in a state whose buffer is empty:
only `done` is emitted, whatever `current_tool_use` holds. -/
theorem msgstop_empty_buffer (fp : String → FlushResult) (s : RelayState)
    (u : Usage) (h : s.tool_input_buffer = "") :
    processFrom fp s [.message_stop u] = [.done u] := by
  have hfr := flushReady_empty s h
  simp [processFrom, relayStep, hfr]

/-- Each `canvas_update` of a turn consumes either the currently open
`edit_canvas` block or one later `edit_canvas` block start: in any turn
whose `message_stop` (if present) is its last event, the number of
`canvas_update` events is bounded by the flush potential of the starting
state plus the number of `edit_canvas` block starts. -/
theorem countCanvasUpdate_le_potential (fp : String → FlushResult) :
    ∀ (evs : List Event) (s : RelayState), msgStopOnlyLast evs = true →
      countCanvasUpdate (processFrom fp s evs) ≤
        flushPotential s + countEditCanvasStart evs := by
  intro evs
  induction evs with
  | nil => intro s _; simp [processFrom, countCanvasUpdate, countEditCanvasStart]
  | cons ev rest ih =>
    intro s hms
    rw [processFrom_cons]
    cases ev with
    | content_block_start cb =>
      have hrest : msgStopOnlyLast rest = true := by
        simpa [msgStopOnlyLast, isMessageStop] using hms
      cases cb with
      | text =>
        have h := ih s hrest
        simp only [relayStep, List.nil_append]
        simp only [countEditCanvasStart, List.countP_cons, isEditCanvasStart] at h ⊢
        omega
      | tool_use name =>
        have h := ih ⟨some name, ""⟩ hrest
        simp only [relayStep, List.singleton_append]
        simp only [countCanvasUpdate, countEditCanvasStart, List.countP_cons,
          isEditCanvasStart, isCanvasUpdate, flushPotential] at h ⊢
        by_cases hn : name = "edit_canvas" <;> simp [hn] at h ⊢ <;> omega
      | other =>
        have h := ih s hrest
        simp only [relayStep, List.nil_append]
        simp only [countEditCanvasStart, List.countP_cons, isEditCanvasStart] at h ⊢
        omega
    | content_block_delta d =>
      have hrest : msgStopOnlyLast rest = true := by
        simpa [msgStopOnlyLast, isMessageStop] using hms
      cases d with
      | text t =>
        have h := ih s hrest
        simp only [relayStep, List.singleton_append]
        simp only [countCanvasUpdate, countEditCanvasStart, List.countP_cons,
          isEditCanvasStart, isCanvasUpdate] at h ⊢
        omega
      | json_fragment p =>
        have h := ih ⟨s.current_tool_use, s.tool_input_buffer ++ p⟩ hrest
        simp only [relayStep, List.nil_append]
        simp only [countEditCanvasStart, List.countP_cons, isEditCanvasStart,
          flushPotential] at h ⊢
        omega
      | other =>
        have h := ih s hrest
        simp only [relayStep, List.nil_append]
        simp only [countEditCanvasStart, List.countP_cons, isEditCanvasStart] at h ⊢
        omega
    | content_block_stop =>
      have hrest : msgStopOnlyLast rest = true := by
        simpa [msgStopOnlyLast, isMessageStop] using hms
      by_cases hfr : flushReady s = true
      · have hcu : s.current_tool_use = some "edit_canvas" := by
          simp only [flushReady, Bool.and_eq_true, decide_eq_true_eq] at hfr
          exact hfr.1
        cases hfp : fp s.tool_input_buffer with
        | success c e =>
          have h := ih ⟨none, ""⟩ hrest
          simp only [relayStep, hfr, if_true, hfp]
          simp [countCanvasUpdate, countEditCanvasStart, List.countP_cons,
            List.countP_append, isEditCanvasStart, isCanvasUpdate,
            flushPotential, hcu] at h ⊢
          omega
        | jsonError m =>
          have h := ih ⟨none, ""⟩ hrest
          simp only [relayStep, hfr, if_true, hfp]
          simp [countCanvasUpdate, countEditCanvasStart, List.countP_cons,
            List.countP_append, isEditCanvasStart, isCanvasUpdate,
            flushPotential, hcu] at h ⊢
          omega
        | fatal m =>
          simp only [relayStep, hfr, if_true, hfp]
          simp [countCanvasUpdate, countEditCanvasStart, List.countP_cons,
            List.countP_append, isEditCanvasStart, isCanvasUpdate,
            flushPotential, hcu]
      · have h := ih s hrest
        simp only [relayStep, hfr, if_false, Bool.false_eq_true, List.nil_append]
        simp only [countEditCanvasStart, List.countP_cons, isEditCanvasStart] at h ⊢
        omega
    | message_stop u =>
      have hrest : rest = [] := by
        simp only [msgStopOnlyLast, isMessageStop, if_true] at hms
        exact List.isEmpty_iff.mp hms
      subst hrest
      by_cases hfr : flushReady s = true
      · have hpot := flushPotential_of_ready s hfr
        cases hfp : fp s.tool_input_buffer with
        | success c e =>
          simp only [relayStep, hfr, if_true, hfp]
          simp [processFrom, countCanvasUpdate, countEditCanvasStart,
            List.countP_cons, isCanvasUpdate, isEditCanvasStart, hpot]
        | jsonError m =>
          simp only [relayStep, hfr, if_true, hfp]
          simp [processFrom, countCanvasUpdate, countEditCanvasStart,
            List.countP_cons, isCanvasUpdate, isEditCanvasStart]
        | fatal m =>
          simp only [relayStep, hfr, if_true, hfp]
          simp [countCanvasUpdate, countEditCanvasStart, List.countP_cons,
            isCanvasUpdate, isEditCanvasStart]
      · simp only [relayStep, hfr, if_false, Bool.false_eq_true]
        simp [processFrom, countCanvasUpdate, countEditCanvasStart,
          List.countP_cons, isCanvasUpdate, isEditCanvasStart]
    | other =>
      have hrest : msgStopOnlyLast rest = true := by
        simpa [msgStopOnlyLast, isMessageStop] using hms
      have h := ih s hrest
      simp only [relayStep, List.nil_append]
      simp only [countEditCanvasStart, List.countP_cons, isEditCanvasStart] at h ⊢
      omega

/-- When the parse abstraction never hits the uncaught-exception branch,
every step continues the loop. -/
theorem relayStep_cont (fp : String → FlushResult)
    (hnf : ∀ b m, fp b ≠ .fatal m) (s : RelayState) (ev : Event) :
    ∃ out s2, relayStep fp s ev = (out, .cont s2) := by
  cases ev with
  | content_block_start cb => cases cb <;> exact ⟨_, _, rfl⟩
  | content_block_delta d => cases d <;> exact ⟨_, _, rfl⟩
  | content_block_stop =>
    by_cases hfr : flushReady s = true
    · cases hfp : fp s.tool_input_buffer with
      | success c e =>
        refine ⟨[.canvas_update c e, .tool_finish "edit_canvas"],
          ⟨none, ""⟩, ?_⟩
        simp [relayStep, hfr, hfp]
      | jsonError m =>
        refine ⟨[.error ("Invalid canvas JSON: " ++ m)], ⟨none, ""⟩, ?_⟩
        simp [relayStep, hfr, hfp]
      | fatal m => exact absurd hfp (hnf _ _)
    · refine ⟨[], s, ?_⟩
      simp [relayStep, hfr]
  | message_stop u =>
    by_cases hfr : flushReady s = true
    · cases hfp : fp s.tool_input_buffer with
      | success c e =>
        refine ⟨[.canvas_update c e, .tool_finish "edit_canvas", .done u],
          s, ?_⟩
        simp [relayStep, hfr, hfp]
      | jsonError m =>
        refine ⟨[.error ("Invalid canvas JSON: " ++ m), .done u], s, ?_⟩
        simp [relayStep, hfr, hfp]
      | fatal m => exact absurd hfp (hnf _ _)
    · refine ⟨[.done u], s, ?_⟩
      simp [relayStep, hfr]
  | other => exact ⟨_, _, rfl⟩

/-- No event other than `message_stop` ever yields a `done` event. -/
theorem relayStep_no_done (fp : String → FlushResult) (s : RelayState)
    (ev : Event) (hev : isMessageStop ev = false) :
    countDone (relayStep fp s ev).1 = 0 := by
  cases ev with
  | content_block_start cb =>
    cases cb <;> simp [relayStep, countDone, List.countP_cons, isDoneEvent]
  | content_block_delta d =>
    cases d <;> simp [relayStep, countDone, List.countP_cons, isDoneEvent]
  | content_block_stop =>
    by_cases hfr : flushReady s = true
    · cases hfp : fp s.tool_input_buffer <;>
        simp [relayStep, hfr, hfp, countDone, List.countP_cons, isDoneEvent]
    · simp [relayStep, hfr, countDone]
  | message_stop u => simp [isMessageStop] at hev
  | other => simp [relayStep, countDone]

/-- A crash-free turn prefix containing no `message_stop` emits no `done`
event and leaves the loop running. -/
theorem no_msgstop_no_done (fp : String → FlushResult)
    (hnf : ∀ b m, fp b ≠ .fatal m) :
    ∀ (evs : List Event) (s : RelayState),
      (evs.all fun e => !isMessageStop e) = true →
      countDone (processFrom fp s evs) = 0 ∧
        ∃ s2, runState fp s evs = .cont s2 := by
  intro evs
  induction evs with
  | nil =>
    intro s _
    exact ⟨by simp [processFrom, countDone], ⟨s, rfl⟩⟩
  | cons ev rest ih =>
    intro s hall
    simp only [List.all_cons, Bool.and_eq_true, Bool.not_eq_true'] at hall
    obtain ⟨hev, hrest⟩ := hall
    obtain ⟨out, s2, hstep⟩ := relayStep_cont fp hnf s ev
    have hrest' : (rest.all fun e => !isMessageStop e) = true := by
      simp only [List.all_eq_true, Bool.not_eq_true'] at hrest ⊢
      exact hrest
    obtain ⟨ihc, s3, ihr⟩ := ih s2 hrest'
    have hno : countDone out = 0 := by
      have h := relayStep_no_done fp s ev hev
      rw [hstep] at h
      exact h
    refine ⟨?_, ⟨s3, ?_⟩⟩
    · rw [processFrom_cons, hstep]
      simp only [countDone, List.countP_append] at hno ihc ⊢
      omega
    · rw [runState_cons, hstep]
      exact ihr

/-- Flushing a lone `message_stop` without hitting the fatal branch:
the yielded events are a done-free flush segment followed by `done`. -/
theorem processFrom_msgstop (fp : String → FlushResult) (s : RelayState)
    (u : Usage) (hnf : ∀ b m, fp b ≠ .fatal m) :
    ∃ t, processFrom fp s [.message_stop u] = t ++ [.done u] ∧
      countDone t = 0 := by
  by_cases hfr : flushReady s = true
  · cases hfp : fp s.tool_input_buffer with
    | success c e =>
      exact ⟨[.canvas_update c e, .tool_finish "edit_canvas"],
        by simp [processFrom, relayStep, hfr, hfp],
        by simp [countDone, List.countP_cons, isDoneEvent]⟩
    | jsonError m =>
      exact ⟨[.error ("Invalid canvas JSON: " ++ m)],
        by simp [processFrom, relayStep, hfr, hfp],
        by simp [countDone, List.countP_cons, isDoneEvent]⟩
    | fatal m => exact absurd hfp (hnf _ _)
  · exact ⟨[], by simp [processFrom, relayStep, hfr], by simp [countDone]⟩

/-- As long as no partial-JSON fragment arrives, the buffer stays empty,
no flush can fire, and the stream carries no `canvas_update`,
`tool_finish` or `error` event. -/
theorem processFrom_no_fragment (fp : String → FlushResult) :
    ∀ (evs : List Event) (s : RelayState), s.tool_input_buffer = "" →
      hasJsonFragment evs = false →
      countCanvasUpdate (processFrom fp s evs) = 0 ∧
      countToolFinish (processFrom fp s evs) = 0 ∧
      countError (processFrom fp s evs) = 0 := by
  intro evs
  induction evs with
  | nil =>
    intro s _ _
    simp [processFrom, countCanvasUpdate, countToolFinish, countError]
  | cons ev rest ih =>
    intro s hbuf hfrag
    have hfrag' : hasJsonFragment rest = false := by
      simp only [hasJsonFragment, List.any_cons, Bool.or_eq_false_iff] at hfrag
      simpa [hasJsonFragment] using hfrag.2
    rw [processFrom_cons]
    cases ev with
    | content_block_start cb =>
      cases cb with
      | text =>
        have h := ih s hbuf hfrag'
        simpa [relayStep] using h
      | tool_use name =>
        have h := ih ⟨some name, ""⟩ rfl hfrag'
        simp only [relayStep, List.singleton_append]
        simp only [countCanvasUpdate, countToolFinish, countError,
          List.countP_cons, isCanvasUpdate, isToolFinish, isErrorEvent] at h ⊢
        simp only [h.1, h.2.1, h.2.2]
        simp
      | other =>
        have h := ih s hbuf hfrag'
        simpa [relayStep] using h
    | content_block_delta d =>
      cases d with
      | text t =>
        have h := ih s hbuf hfrag'
        simp only [relayStep, List.singleton_append]
        simp only [countCanvasUpdate, countToolFinish, countError,
          List.countP_cons, isCanvasUpdate, isToolFinish, isErrorEvent] at h ⊢
        simp only [h.1, h.2.1, h.2.2]
        simp
      | json_fragment p =>
        exfalso
        simp [hasJsonFragment, List.any_cons] at hfrag
      | other =>
        have h := ih s hbuf hfrag'
        simpa [relayStep] using h
    | content_block_stop =>
      have hfr := flushReady_empty s hbuf
      have h := ih s hbuf hfrag'
      simpa [relayStep, hfr] using h
    | message_stop u =>
      have hfr := flushReady_empty s hbuf
      have h := ih s hbuf hfrag'
      simp only [relayStep, hfr, Bool.false_eq_true, if_false,
        List.singleton_append]
      simp only [countCanvasUpdate, countToolFinish, countError,
        List.countP_cons, isCanvasUpdate, isToolFinish, isErrorEvent] at h ⊢
      simp only [h.1, h.2.1, h.2.2]
      simp
    | other =>
      have h := ih s hbuf hfrag'
      simpa [relayStep] using h

/- ============================================================
   The claims
   ============================================================ -/

/-- C1: when an `edit_canvas` tool block is still open with a non-empty
buffer at `message_stop`, the relay performs the two-stage parse there
and, on success, emits exactly one `canvas_update` then exactly one
`tool_finish`, immediately before `done`; when the buffer was already
flushed (hence emptied) by `content_block_stop`, `message_stop` adds
only `done` — the emptied buffer is the de-duplication check; and over
any turn whose `message_stop` (if any) is last and which opens at most
one `edit_canvas` block (the one tool invocation the model is permitted
per turn), at most one `canvas_update` is emitted. -/
theorem claim1 (fp : String → FlushResult) (pre : List Event)
    (b c e : String) (u : Usage)
    (hs : runState fp initState pre = .cont ⟨some "edit_canvas", b⟩)
    (hb : b ≠ "") (hp : fp b = .success c e) :
    stream_ai_response fp (pre ++ [.message_stop u]) =
      stream_ai_response fp pre ++
        [.canvas_update c e, .tool_finish "edit_canvas", .done u] ∧
    (∀ (pre2 : List Event) (s2 : RelayState),
        runState fp initState pre2 = .cont s2 → s2.tool_input_buffer = "" →
        stream_ai_response fp (pre2 ++ [.message_stop u]) =
          stream_ai_response fp pre2 ++ [.done u]) ∧
    (∀ evs : List Event, msgStopOnlyLast evs = true →
        countEditCanvasStart evs ≤ 1 →
        countCanvasUpdate (stream_ai_response fp evs) ≤ 1) := by
  refine ⟨?_, ?_, ?_⟩
  · rw [stream_ai_response, stream_ai_response,
      processFrom_append fp pre initState _ _ hs,
      (msgstop_flush_success fp b c e u hb hp).1]
  · intro pre2 s2 h2 hbuf
    rw [stream_ai_response, stream_ai_response,
      processFrom_append fp pre2 initState _ _ h2,
      msgstop_empty_buffer fp s2 u hbuf]
  · intro evs hms hle
    have h := countCanvasUpdate_le_potential fp evs initState hms
    have hz : flushPotential initState = 0 := by simp [flushPotential, initState]
    rw [stream_ai_response]
    omega

/-- Witness for C1 at a concrete turn: an `edit_canvas` block whose
well-formed buffer is flushed at `message_stop`. -/
theorem claim1_witness :
    stream_ai_response fpOk (preC1 ++ [Event.message_stop ⟨3, 7⟩]) =
      stream_ai_response fpOk preC1 ++
        [OutEvent.canvas_update "canvasText" "cleared",
         OutEvent.tool_finish "edit_canvas", OutEvent.done ⟨3, 7⟩] :=
  (claim1 fpOk preC1 "good" "canvasText" "cleared" ⟨3, 7⟩ (by decide)
    (by decide) (by decide)).1

/-- C2: when the accumulated buffer of an `edit_canvas` block is, at its
`content_block_stop`, a well-formed tool argument (outer JSON dict with
a valid inner `canvas_json` text), the block yields exactly one
`canvas_update` (carrying the raw canvas text and the explanation)
followed immediately by exactly one `tool_finish`, and no `error`; the
accumulator is then cleared. -/
theorem claim2 (fp : String → FlushResult) (pre : List Event)
    (b c e : String)
    (hs : runState fp initState pre = .cont ⟨some "edit_canvas", b⟩)
    (hb : b ≠ "") (hp : fp b = .success c e) :
    stream_ai_response fp (pre ++ [.content_block_stop]) =
      stream_ai_response fp pre ++
        [.canvas_update c e, .tool_finish "edit_canvas"] ∧
    runState fp initState (pre ++ [.content_block_stop]) =
      .cont ⟨none, ""⟩ := by
  constructor
  · rw [stream_ai_response, stream_ai_response,
      processFrom_append fp pre initState _ _ hs,
      (stop_flush_success fp b c e hb hp).1]
  · rw [runState_append fp pre initState _ _ hs]
    exact (stop_flush_success fp b c e hb hp).2

/-- Witness for C2 at a concrete turn: a well-formed buffer flushed at
`content_block_stop`. -/
theorem claim2_witness :
    stream_ai_response fpOk (preC1 ++ [Event.content_block_stop]) =
      stream_ai_response fpOk preC1 ++
        [OutEvent.canvas_update "canvasText" "cleared",
         OutEvent.tool_finish "edit_canvas"] :=
  (claim2 fpOk preC1 "good" "canvasText" "cleared" (by decide) (by decide)
    (by decide)).1

/-- C3 counterexample: a malformed buffer flushed at `message_stop` does
emit its single `error`, but the accumulator is NOT cleared (the source
resets `current_tool_use`/`tool_input_buffer` only in the
`content_block_stop` branch), contradicting the claim that the
accumulator is cleared at the point the malformed argument is flushed. -/
theorem claim3_counterexample :
    countError (stream_ai_response fpErr evsC3) = 1 ∧
    runState fpErr initState evsC3 =
      .cont ⟨some "edit_canvas", "X"⟩ := by decide

/-- C3 amended: when the accumulated `edit_canvas` argument is malformed
JSON at the point it is flushed, exactly one `error` and no
`canvas_update` are emitted for that block and the turn continues; the
accumulator is cleared when the flush happens at `content_block_stop`
(subsequent events are processed from the idle state), while at
`message_stop` the accumulator is left unchanged and `done` follows
immediately. -/
theorem claim3_amended (fp : String → FlushResult) (pre post : List Event)
    (b m : String) (u : Usage)
    (hs : runState fp initState pre = .cont ⟨some "edit_canvas", b⟩)
    (hb : b ≠ "") (hp : fp b = .jsonError m) :
    stream_ai_response fp (pre ++ .content_block_stop :: post) =
      stream_ai_response fp pre ++
        .error ("Invalid canvas JSON: " ++ m) ::
          processFrom fp ⟨none, ""⟩ post ∧
    stream_ai_response fp (pre ++ [.message_stop u]) =
      stream_ai_response fp pre ++
        [.error ("Invalid canvas JSON: " ++ m), .done u] ∧
    runState fp initState (pre ++ [.message_stop u]) =
      .cont ⟨some "edit_canvas", b⟩ := by
  refine ⟨?_, ?_, ?_⟩
  · have h1 : pre ++ .content_block_stop :: post =
        (pre ++ [.content_block_stop]) ++ post := by simp
    have hrun : runState fp initState (pre ++ [.content_block_stop]) =
        .cont ⟨none, ""⟩ := by
      rw [runState_append fp pre initState _ _ hs]
      exact (stop_flush_jsonError fp b m hb hp).2
    rw [h1, stream_ai_response, stream_ai_response,
      processFrom_append fp _ initState _ _ hrun,
      processFrom_append fp pre initState _ _ hs,
      (stop_flush_jsonError fp b m hb hp).1]
    simp
  · rw [stream_ai_response, stream_ai_response,
      processFrom_append fp pre initState _ _ hs,
      (msgstop_flush_jsonError fp b m u hb hp).1]
  · rw [runState_append fp pre initState _ _ hs]
    exact (msgstop_flush_jsonError fp b m u hb hp).2

/-- Witness for the amended C3 at a concrete turn: a malformed buffer
flushed at `content_block_stop`, after which the turn continues into a
`message_stop`. -/
theorem claim3_amended_witness :
    stream_ai_response fpErr
        (preC3 ++ Event.content_block_stop :: [Event.message_stop ⟨0, 0⟩]) =
      stream_ai_response fpErr preC3 ++
        OutEvent.error ("Invalid canvas JSON: " ++ "Expecting value") ::
          processFrom fpErr ⟨none, ""⟩ [Event.message_stop ⟨0, 0⟩] :=
  (claim3_amended fpErr preC3 [Event.message_stop ⟨0, 0⟩] "X"
    "Expecting value" ⟨0, 0⟩ (by decide) (by decide) (by decide)).1

/-- C4 counterexample: a `content_block_start` of kind tool_use whose
tool name is not the recognized `edit_canvas` is NOT inert — the relay
emits a `tool_start` carrying that name and records the block as open,
contradicting the claim that `tool_start` is emitted only for the
recognized tool name and that other tool names produce no outward event
and no state change. -/
theorem claim4_counterexample :
    stream_ai_response fpErr
        [Event.content_block_start (.tool_use "other_tool")] =
      [OutEvent.tool_start "other_tool" editCanvasMessage] ∧
    runState fpErr initState
        [Event.content_block_start (.tool_use "other_tool")] =
      .cont ⟨some "other_tool", ""⟩ := by decide

/-- C4 amended: a `tool_start` is emitted exactly when a
`content_block_start` of kind tool_use arrives, carrying whatever tool
name that block declares (the source does not filter on the recognized
name at this point); `content_block_start` events of kind text or of any
other kind are inert — no outward event, no state change; and no other
event kind ever yields a `tool_start`. -/
theorem claim4_amended (fp : String → FlushResult) (s : RelayState)
    (name : String) :
    relayStep fp s (.content_block_start (.tool_use name)) =
      ([.tool_start name editCanvasMessage], .cont ⟨some name, ""⟩) ∧
    relayStep fp s (.content_block_start .text) = ([], .cont s) ∧
    relayStep fp s (.content_block_start .other) = ([], .cont s) ∧
    (∀ ev : Event, countToolStart (relayStep fp s ev).1 ≠ 0 →
      ∃ n, ev = .content_block_start (.tool_use n)) := by
  refine ⟨rfl, rfl, rfl, ?_⟩
  intro ev hev
  cases ev with
  | content_block_start cb =>
    cases cb with
    | text => simp [relayStep, countToolStart] at hev
    | tool_use n => exact ⟨n, rfl⟩
    | other => simp [relayStep, countToolStart] at hev
  | content_block_delta d =>
    cases d <;>
      simp [relayStep, countToolStart, List.countP_cons, isToolStart] at hev
  | content_block_stop =>
    exfalso
    by_cases hfr : flushReady s = true
    · cases hfp : fp s.tool_input_buffer <;>
        simp [relayStep, hfr, hfp, countToolStart, List.countP_cons,
          isToolStart] at hev
    · simp [relayStep, hfr, countToolStart] at hev
  | message_stop u =>
    exfalso
    by_cases hfr : flushReady s = true
    · cases hfp : fp s.tool_input_buffer <;>
        simp [relayStep, hfr, hfp, countToolStart, List.countP_cons,
          isToolStart] at hev
    · simp [relayStep, hfr, countToolStart, List.countP_cons,
        isToolStart] at hev
  | other => simp [relayStep, countToolStart] at hev

/-- Witness for the amended C4 at a concrete state and tool name. -/
theorem claim4_amended_witness :
    relayStep fpErr initState
        (Event.content_block_start (.tool_use "edit_canvas")) =
      ([OutEvent.tool_start "edit_canvas" editCanvasMessage],
        .cont ⟨some "edit_canvas", ""⟩) :=
  (claim4_amended fpErr initState "edit_canvas").1

/-- C5 counterexample: a turn that does reach `message_stop` but whose
open buffer parses to a non-dict JSON value (here the abstract valuation
marks buffer `"nd"` as hitting the uncaught `AttributeError` of
`tool_input.get`) ends with a single `error` from the generator's outer
handler and NO `done` event — contradicting the claim that every turn
reaching `message_stop` emits exactly one `done`, last. -/
theorem claim5_counterexample :
    evsC5.getLast? = some (Event.message_stop ⟨0, 0⟩) ∧
    stream_ai_response fpFatal evsC5 =
      [OutEvent.tool_start "edit_canvas" editCanvasMessage,
       OutEvent.error "AttributeError: no attribute get"] ∧
    countDone (stream_ai_response fpFatal evsC5) = 0 := by decide

/-- C5 amended: for every turn that ends with its `message_stop` and
whose processing raises no uncaught exception (the two-stage parse never
hits the fatal branch), exactly one `done` is emitted and it is the last
event of the outward stream. -/
theorem claim5_amended (fp : String → FlushResult)
    (hnf : ∀ b m, fp b ≠ FlushResult.fatal m) (pre : List Event) (u : Usage)
    (hpre : (pre.all fun e => !isMessageStop e) = true) :
    ∃ out, stream_ai_response fp (pre ++ [.message_stop u]) =
      out ++ [.done u] ∧ countDone out = 0 := by
  obtain ⟨hc, s1, hrun⟩ := no_msgstop_no_done fp hnf pre initState hpre
  obtain ⟨t, ht, htc⟩ := processFrom_msgstop fp s1 u hnf
  refine ⟨processFrom fp initState pre ++ t, ?_, ?_⟩
  · rw [stream_ai_response, processFrom_append fp pre initState s1 _ hrun, ht,
      List.append_assoc]
  · simp only [countDone, List.countP_append] at hc htc ⊢
    omega

/-- Witness for the amended C5 at a concrete turn ending in
`message_stop`, under a valuation that never hits the fatal branch. -/
theorem claim5_amended_witness :
    ∃ out, stream_ai_response fpErr (preC3 ++ [Event.message_stop ⟨0, 0⟩]) =
      out ++ [OutEvent.done ⟨0, 0⟩] ∧ countDone out = 0 :=
  claim5_amended fpErr (fun b m => by simp [fpErr]) preC3 ⟨0, 0⟩ (by decide)

/-- C10: an `edit_canvas` tool block that receives no partial-JSON
fragment before `message_stop` contributes its `tool_start` to the
outward stream but no `canvas_update`, no `tool_finish` and no `error`
— the empty-buffer block is dropped silently. -/
theorem claim10 (fp : String → FlushResult) (mid : List Event)
    (h : hasJsonFragment mid = false) :
    ∃ rest,
      stream_ai_response fp
          (Event.content_block_start (.tool_use "edit_canvas") :: mid) =
        OutEvent.tool_start "edit_canvas" editCanvasMessage :: rest ∧
      countCanvasUpdate rest = 0 ∧ countToolFinish rest = 0 ∧
      countError rest = 0 := by
  obtain ⟨h1, h2, h3⟩ :=
    processFrom_no_fragment fp mid ⟨some "edit_canvas", ""⟩ rfl h
  refine ⟨processFrom fp ⟨some "edit_canvas", ""⟩ mid, ?_, h1, h2, h3⟩
  rw [stream_ai_response, processFrom_cons]
  simp [relayStep]

/-- Witness for C10: a block start followed directly by
`content_block_stop` and `message_stop`, with no fragments. -/
theorem claim10_witness :
    ∃ rest,
      stream_ai_response fpErr
          (Event.content_block_start (.tool_use "edit_canvas") ::
            [Event.content_block_stop, Event.message_stop ⟨0, 0⟩]) =
        OutEvent.tool_start "edit_canvas" editCanvasMessage :: rest ∧
      countCanvasUpdate rest = 0 ∧ countToolFinish rest = 0 ∧
      countError rest = 0 :=
  claim10 fpErr [Event.content_block_stop, Event.message_stop ⟨0, 0⟩]
    (by decide)

/-- C6 (code bug, evaluated at the failing input): a process-file
request whose fileType (`"text/plain"`) is neither CSV-like nor
Excel-like does NOT receive HTTP 400.  The source executes
`raise HTTPException(status_code=400, ...)`, but that raise sits inside
the same `try:` whose `except Exception` returns a
`FileProcessingResponse`, and `HTTPException` is an `Exception` — so the
endpoint answers HTTP 200 with `success=False` and the stringified
exception as the error message. -/
theorem claim6_code_bug :
    (process_file (.ok ⟨true, none⟩) ⟨3, 2⟩ "text/plain").1.status = 200 ∧
    (process_file (.ok ⟨true, none⟩) ⟨3, 2⟩ "text/plain").1.body.success
      = false ∧
    (process_file (.ok ⟨true, none⟩) ⟨3, 2⟩ "text/plain").1.body.error =
      some "400: Unsupported file type: text/plain" := by decide

/-- C7: a process-file request whose decoded file parses to a dataset
with 0 rows yields the failure variant — `success=False` with a
non-empty error message — and no model call is issued for that request
(the `ValueError` is raised before `generate_subsets_with_claude`). -/
theorem claim7 (mo : PathOutcome) (df : DataFrame) (ft : String)
    (hft : isCsvType ft = true ∨ isExcelType ft = true)
    (h0 : df.nrows = 0) :
    (process_file mo df ft).1.body.success = false ∧
    (∃ m, (process_file mo df ft).1.body.error = some m ∧ m ≠ "") ∧
    (process_file mo df ft).2 = false := by
  have hemp : df.emptyDf = true := by simp [DataFrame.emptyDf, h0]
  rcases hft with h | h
  · refine ⟨?_, ⟨"CSV file is empty", ?_, by decide⟩, ?_⟩ <;>
      simp [process_file, h, process_csv_file, hemp, wrapOutcome]
  · by_cases hcsv : isCsvType ft = true
    · refine ⟨?_, ⟨"CSV file is empty", ?_, by decide⟩, ?_⟩ <;>
        simp [process_file, hcsv, process_csv_file, hemp, wrapOutcome]
    · refine ⟨?_, ⟨"Excel sheet is empty", ?_, by decide⟩, ?_⟩ <;>
        simp [process_file, hcsv, h, process_excel_file, hemp, wrapOutcome]

/-- Witness for C7: a zero-row CSV upload. -/
theorem claim7_witness :
    (process_file (.ok ⟨true, none⟩) ⟨0, 3⟩ "text/csv").1.body.success
      = false ∧
    (∃ m, (process_file (.ok ⟨true, none⟩) ⟨0, 3⟩ "text/csv").1.body.error =
      some m ∧ m ≠ "") ∧
    (process_file (.ok ⟨true, none⟩) ⟨0, 3⟩ "text/csv").2 = false :=
  claim7 (.ok ⟨true, none⟩) ⟨0, 3⟩ "text/csv" (Or.inl (by decide)) rfl

/-- C8: `build_system_prompt` is a total function of its inputs — the
only fallible step, the canvas parse, is wrapped in the source's
`try/except` modelled by `canvas_counts` — and whenever the canvas text
fails to parse, the node and edge counts used in the prompt both fall
back to 0: the produced prompt is exactly the template rendered with
counts (0, 0). -/
theorem claim8 (includeRaw : Bool)
    (cp : String → Except String (Nat × Nat))
    (pd : String → RawFileData → List String) (cc : String)
    (dss : List DataSource) (msg : String) (h : cp cc = .error msg) :
    canvas_counts cp cc = (0, 0) ∧
    build_system_prompt includeRaw cp pd cc dss =
      renderPrompt includeRaw pd 0 0 cc dss := by
  have h0 : canvas_counts cp cc = (0, 0) := by simp [canvas_counts, h]
  exact ⟨h0, by simp [build_system_prompt, h0]⟩

/-- Witness for C8: a canvas text on which the parse fails. -/
theorem claim8_witness :
    canvas_counts cpFail "notjson" = (0, 0) ∧
    build_system_prompt false cpFail pdNone "notjson" [] =
      renderPrompt false pdNone 0 0 "notjson" [] :=
  claim8 false cpFail pdNone "notjson" [] "Expecting value" rfl

/-- The summary line never reads `rawFileData`. -/
theorem dataSummaryLine_eraseRaw (ds : DataSource) :
    dataSummaryLine (DataSource.eraseRaw ds) = dataSummaryLine ds := rfl

/-- The subsets block never reads `rawFileData`. -/
theorem subsetsBlock_eraseRaw (ds : DataSource) :
    subsetsBlock (DataSource.eraseRaw ds) = subsetsBlock ds := rfl

/-- C9: with the raw-data toggle disabled, the prompt contains no
row-level raw file data — the prompt is a function of the catalogue with
`rawFileData` erased, so any two catalogues differing only in their
`rawFileData` contents produce the identical prompt. -/
theorem claim9 (cp : String → Except String (Nat × Nat))
    (pd : String → RawFileData → List String) (cc : String)
    (dss1 dss2 : List DataSource)
    (h : dss1.map DataSource.eraseRaw = dss2.map DataSource.eraseRaw) :
    build_system_prompt false cp pd cc dss1 =
      build_system_prompt false cp pd cc dss2 := by
  have hsum : dss1.map dataSummaryLine = dss2.map dataSummaryLine := by
    have h1 := congrArg (List.map dataSummaryLine) h
    simpa [List.map_map, Function.comp_def, dataSummaryLine_eraseRaw] using h1
  have hsub : dss1.map subsetsBlock = dss2.map subsetsBlock := by
    have h1 := congrArg (List.map subsetsBlock) h
    simpa [List.map_map, Function.comp_def, subsetsBlock_eraseRaw] using h1
  simp [build_system_prompt, renderPrompt, hsum, hsub]

/-- Witness for C9: two catalogues that differ only in the stored raw
buffer yield the same prompt when the toggle is disabled. -/
theorem claim9_witness :
    build_system_prompt false cpFail pdNone "canvas" [dsRaw1] =
      build_system_prompt false cpFail pdNone "canvas" [dsRaw2] :=
  claim9 cpFail pdNone "canvas" [dsRaw1] [dsRaw2] (by decide)

end Cognivo
